import Mathlib

/-!
# MAX30102 driver: sample acquisition and fault recovery

A shallow embedding of `max30102.c` / `max30102.h` (device driver) and of the
polling loop of `main.c`.  Driver functions are state transformers over a
`Bus`, the model of the I2C device behind `max30102_dev_handle`.  Unsigned
8-bit values are natural numbers reduced `% 256` where they cross the bus.
`vTaskDelay` and the `ESP_LOG*` calls do not touch the bus and are left out.
-/

namespace MAX30102

/-! ## max30102.h -/

/-- Error codes (`max30102_err_t`). -/
inductive max30102_err_t where
  | MAX30102_OK
  | MAX30102_ERR_INIT
  | MAX30102_ERR_I2C
  | MAX30102_ERR_TIMEOUT
  | MAX30102_ERR_INVALID_PARAM
  | MAX30102_ERR_NO_DATA
  deriving DecidableEq, Repr

open max30102_err_t

abbrev MAX30102_REG_FIFO_WR_PTR : Nat := 0x04
abbrev MAX30102_REG_OVF_COUNTER : Nat := 0x05
abbrev MAX30102_REG_FIFO_RD_PTR : Nat := 0x06
abbrev MAX30102_REG_FIFO_DATA : Nat := 0x07
abbrev MAX30102_REG_FIFO_CONFIG : Nat := 0x08
abbrev MAX30102_REG_MODE_CONFIG : Nat := 0x09
abbrev MAX30102_REG_SPO2_CONFIG : Nat := 0x0A
abbrev MAX30102_REG_LED1_PA : Nat := 0x0C
abbrev MAX30102_REG_LED2_PA : Nat := 0x0D
abbrev MAX30102_REG_PART_ID : Nat := 0xFF

abbrev MAX30102_MODE_HR_ONLY : Nat := 0x02
abbrev MAX30102_MODE_SPO2 : Nat := 0x03
abbrev MAX30102_SAMPLEAVG_1 : Nat := 0x00
abbrev MAX30102_ROLLOVER_EN : Nat := 0x10
abbrev MAX30102_A_FULL_MASK : Nat := 0x0F
abbrev MAX30102_SAMPLERATE_50 : Nat := 0x00
abbrev MAX30102_PULSEWIDTH_215 : Nat := 0x02
abbrev MAX30102_ADCRANGE_4096 : Nat := 0x20

/-- Configuration structure (`max30102_config_t`); the `uint8_t` fields are naturals. -/
structure max30102_config_t where
  mode : Nat
  sample_rate : Nat
  pulse_width : Nat
  adc_range : Nat
  sample_avg : Nat
  led1_power : Nat
  led2_power : Nat
  rollover_enable : Bool
  almost_full_threshold : Nat
  deriving DecidableEq, Repr

/-- Sample data structure (`max30102_sample_t`). -/
structure max30102_sample_t where
  red : Nat
  ir : Nat
  valid : Bool
  deriving DecidableEq, Repr

/-- The constant `MAX30102_DEFAULT_CONFIG` of max30102.c. -/
def MAX30102_DEFAULT_CONFIG : max30102_config_t :=
  { mode := MAX30102_MODE_SPO2
    sample_rate := MAX30102_SAMPLERATE_50
    pulse_width := MAX30102_PULSEWIDTH_215
    adc_range := MAX30102_ADCRANGE_4096
    sample_avg := MAX30102_SAMPLEAVG_1
    led1_power := 0x1F
    led2_power := 0x1F
    rollover_enable := true
    almost_full_threshold := 10 }

/-! ## The bus behind `max30102_dev_handle` -/

/-- One I2C transaction as issued by the driver, with its outcome
(`ok = true` for `ESP_OK`). -/
inductive Xfer where
  | write (reg data : Nat) (ok : Bool)
  | read (reg len : Nat) (ok : Bool)
  deriving DecidableEq, Repr

/-- The environment of the driver.  `handle` tells whether `max30102_dev_handle`
is non-NULL, `regs` is the device register file, `fifo` the byte stream behind
the FIFO data register, `ok n` the outcome of the `n`-th transaction on the bus
(counted from 0), and `trace` the transactions issued so far. -/
structure Bus where
  handle : Bool
  regs : Nat → Nat
  fifo : List Nat
  ok : Nat → Bool
  trace : List Xfer

/-- ESP-IDF `i2c_master_transmit` of the two bytes `{reg, data}`: a register
write, stored by the register file when the transaction succeeds. -/
def i2c_master_transmit (reg data : Nat) (b : Bus) : Bool × Bus :=
  if b.ok b.trace.length then
    (true, { b with regs := fun r => if r = reg then data else b.regs r
                    trace := b.trace ++ [Xfer.write reg data true] })
  else
    (false, { b with trace := b.trace ++ [Xfer.write reg data false] })

/-- ESP-IDF `i2c_master_transmit_receive` of one address byte followed by a
read of `len` bytes: from the FIFO data register the next `len` bytes of the
stream, from any other address the registers starting there. -/
def i2c_master_transmit_receive (reg len : Nat) (b : Bus) : Bool × List Nat × Bus :=
  if b.ok b.trace.length then
    if reg = MAX30102_REG_FIFO_DATA then
      (true, (List.range len).map (fun i => b.fifo.getD i 0 % 256),
        { b with fifo := b.fifo.drop len
                 trace := b.trace ++ [Xfer.read reg len true] })
    else
      (true, (List.range len).map (fun i => b.regs (reg + i) % 256),
        { b with trace := b.trace ++ [Xfer.read reg len true] })
  else
    (false, [], { b with trace := b.trace ++ [Xfer.read reg len false] })

/-! ## max30102.c -/

/-- Source `max30102_write_reg(uint8_t reg, uint8_t data)`. -/
def max30102_write_reg (reg data : Nat) (b : Bus) : max30102_err_t × Bus :=
  if !b.handle then (MAX30102_ERR_INIT, b)
  else
    let r := i2c_master_transmit (reg % 256) (data % 256) b
    if !r.1 then (MAX30102_ERR_I2C, r.2)
    else (MAX30102_OK, r.2)

/-- Source `max30102_read_reg(uint8_t reg, uint8_t *data)`; the byte stored
through `data` is returned next to the error code (0 when nothing was stored).
Every caller passes the address of a local, so `data` is never NULL. -/
def max30102_read_reg (reg : Nat) (b : Bus) : max30102_err_t × Nat × Bus :=
  if !b.handle then (MAX30102_ERR_INVALID_PARAM, 0, b)
  else
    let r := i2c_master_transmit_receive (reg % 256) 1 b
    if !r.1 then (MAX30102_ERR_I2C, 0, r.2.2)
    else (MAX30102_OK, r.2.1.getD 0 0, r.2.2)

/-- Source `max30102_read_fifo_data(uint8_t *data, size_t len)`; the bytes
stored into `data` are returned next to the error code. -/
def max30102_read_fifo_data (len : Nat) (b : Bus) : max30102_err_t × List Nat × Bus :=
  if len = 0 || !b.handle then (MAX30102_ERR_INVALID_PARAM, [], b)
  else
    let r := i2c_master_transmit_receive MAX30102_REG_FIFO_DATA len b
    if !r.1 then (MAX30102_ERR_I2C, [], r.2.2)
    else (MAX30102_OK, r.2.1, r.2.2)

/-- Source `max30102_reset`. -/
def max30102_reset (b : Bus) : max30102_err_t × Bus :=
  max30102_write_reg MAX30102_REG_MODE_CONFIG 0x40 b

/-- Source `max30102_get_part_id`. -/
def max30102_get_part_id (b : Bus) : max30102_err_t × Nat × Bus :=
  max30102_read_reg MAX30102_REG_PART_ID b

/-- Source `max30102_clear_fifo`. -/
def max30102_clear_fifo (b : Bus) : max30102_err_t × Bus :=
  let r1 := max30102_write_reg MAX30102_REG_FIFO_WR_PTR 0x00 b
  if r1.1 ≠ MAX30102_OK then r1
  else
    let r2 := max30102_write_reg MAX30102_REG_OVF_COUNTER 0x00 r1.2
    if r2.1 ≠ MAX30102_OK then r2
    else max30102_write_reg MAX30102_REG_FIFO_RD_PTR 0x00 r2.2

/-- Source `max30102_set_led_power`. -/
def max30102_set_led_power (led1_power led2_power : Nat) (b : Bus) : max30102_err_t × Bus :=
  let r1 := max30102_write_reg MAX30102_REG_LED1_PA led1_power b
  if r1.1 ≠ MAX30102_OK then r1
  else max30102_write_reg MAX30102_REG_LED2_PA led2_power r1.2

/-- Source `max30102_deinit`. -/
def max30102_deinit (b : Bus) : max30102_err_t × Bus :=
  max30102_write_reg MAX30102_REG_MODE_CONFIG 0x80 b

/-- Source `max30102_init`; `config = none` is the NULL pointer. -/
def max30102_init (config : Option max30102_config_t) (b : Bus) : max30102_err_t × Bus :=
  match config with
  | none => (MAX30102_ERR_INVALID_PARAM, b)
  | some c =>
    if !b.handle then (MAX30102_ERR_INIT, b)
    else
      let r1 := max30102_write_reg MAX30102_REG_MODE_CONFIG 0x80 b
      if r1.1 ≠ MAX30102_OK then r1
      else
        let r2 := max30102_reset r1.2
        if r2.1 ≠ MAX30102_OK then r2
        else
          let r3 := max30102_get_part_id r2.2
          if r3.1 ≠ MAX30102_OK then (r3.1, r3.2.2)
          else if r3.2.1 ≠ 0x15 then (MAX30102_ERR_INIT, r3.2.2)
          else
            let r4 := max30102_clear_fifo r3.2.2
            if r4.1 ≠ MAX30102_OK then r4
            else
              let fifo_config := ((c.sample_avg &&& 0xE0) |||
                (if c.rollover_enable then MAX30102_ROLLOVER_EN else 0) |||
                (c.almost_full_threshold &&& MAX30102_A_FULL_MASK)) % 256
              let r5 := max30102_write_reg MAX30102_REG_FIFO_CONFIG fifo_config r4.2
              if r5.1 ≠ MAX30102_OK then r5
              else
                let spo2_config := ((c.adc_range &&& 0x60) |||
                  (c.sample_rate &&& 0x1C) ||| (c.pulse_width &&& 0x03)) % 256
                let r6 := max30102_write_reg MAX30102_REG_SPO2_CONFIG spo2_config r5.2
                if r6.1 ≠ MAX30102_OK then r6
                else
                  let r7 := max30102_set_led_power c.led1_power c.led2_power r6.2
                  if r7.1 ≠ MAX30102_OK then r7
                  else
                    let r8 := max30102_clear_fifo r7.2
                    if r8.1 ≠ MAX30102_OK then r8
                    else
                      let r9 := max30102_write_reg MAX30102_REG_MODE_CONFIG c.mode r8.2
                      if r9.1 ≠ MAX30102_OK then r9
                      else
                        let r10 := max30102_clear_fifo r9.2
                        if r10.1 ≠ MAX30102_OK then r10
                        else (MAX30102_OK, r10.2)

/-- Conversion of an `int` to `int8_t` (two's complement wrap). -/
def to_int8 (x : Int) : Int := (x + 128) % 256 - 128

/-- The samples-available computation of `max30102_read_sample`
(`int8_t samples_available`), from the two pointer bytes. -/
def samples_available (write_ptr read_ptr : Nat) : Int :=
  if write_ptr ≥ read_ptr then to_int8 ((write_ptr : Int) - (read_ptr : Int))
  else to_int8 ((32 - (read_ptr : Int)) + (write_ptr : Int))

/-- The channel decoding of `max30102_read_sample`: three FIFO bytes, big
endian, masked to 18 bits. -/
def decode_channel (d0 d1 d2 : Nat) : Nat :=
  ((d0 <<< 16) ||| (d1 <<< 8) ||| d2) &&& 0x03FFFF

/-- Source `max30102_read_sample`; `sample = none` is the NULL pointer, and
the sample returned is the content of `*sample` after the call.  The static
`debug_counter` only decides when a log line is printed and is left out. -/
def max30102_read_sample (sample : Option max30102_sample_t) (b : Bus) :
    max30102_err_t × Option max30102_sample_t × Bus :=
  match sample with
  | none => (MAX30102_ERR_INVALID_PARAM, none, b)
  | some s0 =>
    let s : max30102_sample_t := { s0 with valid := false }
    let r1 := max30102_read_reg MAX30102_REG_FIFO_WR_PTR b
    if r1.1 ≠ MAX30102_OK then (r1.1, some s, r1.2.2)
    else
      let write_ptr := r1.2.1
      let r2 := max30102_read_reg MAX30102_REG_FIFO_RD_PTR r1.2.2
      if r2.1 ≠ MAX30102_OK then (r2.1, some s, r2.2.2)
      else
        let read_ptr := r2.2.1
        let r3 := max30102_read_reg MAX30102_REG_OVF_COUNTER r2.2.2
        if r3.1 ≠ MAX30102_OK then (r3.1, some s, r3.2.2)
        else
          let overflow_counter := r3.2.1
          if overflow_counter > 0 then
            let w1 := max30102_write_reg MAX30102_REG_MODE_CONFIG 0x80 r3.2.2
            let w2 := max30102_clear_fifo w1.2
            let w3 := max30102_write_reg MAX30102_REG_MODE_CONFIG MAX30102_MODE_SPO2 w2.2
            (MAX30102_ERR_NO_DATA, some s, w3.2)
          else if samples_available write_ptr read_ptr ≤ 0 then
            (MAX30102_ERR_NO_DATA, some s, r3.2.2)
          else if samples_available write_ptr read_ptr > 8 then
            let w := max30102_clear_fifo r3.2.2
            (MAX30102_ERR_NO_DATA, some s, w.2)
          else
            let r4 := max30102_read_fifo_data 6 r3.2.2
            if r4.1 ≠ MAX30102_OK then (r4.1, some s, r4.2.2)
            else
              let d := r4.2.1
              (MAX30102_OK,
                some { red := decode_channel (d.getD 0 0) (d.getD 1 0) (d.getD 2 0)
                       ir := decode_channel (d.getD 3 0) (d.getD 4 0) (d.getD 5 0)
                       valid := true },
                r4.2.2)

/-! ## main.c -/

/-- The locals of `sensor_task` that live across iterations, with the bus. -/
structure sensor_task_state where
  sample : max30102_sample_t
  sample_count : Nat
  no_data_count : Nat
  bus : Bus

/-- One iteration of the `while (1)` loop of `sensor_task` (`uint32_t`
counters wrap at `2^32`). -/
def sensor_task_iter (st : sensor_task_state) : sensor_task_state :=
  let r := max30102_read_sample (some st.sample) st.bus
  let sample := r.2.1.getD st.sample
  let st1 : sensor_task_state :=
    if r.1 = MAX30102_OK ∧ sample.valid = true then
      { sample := sample, sample_count := (st.sample_count + 1) % 2 ^ 32,
        no_data_count := 0, bus := r.2.2 }
    else if r.1 = MAX30102_ERR_NO_DATA then
      { sample := sample, sample_count := st.sample_count,
        no_data_count := (st.no_data_count + 1) % 2 ^ 32, bus := r.2.2 }
    else
      { sample := sample, sample_count := st.sample_count,
        no_data_count := st.no_data_count, bus := (max30102_clear_fifo r.2.2).2 }
  if st1.no_data_count > 100 then
    let b1 := (max30102_reset st1.bus).2
    let b2 := (max30102_init (some MAX30102_DEFAULT_CONFIG) b1).2
    { st1 with no_data_count := 0, bus := b2 }
  else st1

/-- The first `n` iterations of the loop of `sensor_task`.  Between two
iterations (during `vTaskDelayUntil`) the device acts on its own: `hw i` is
what it does to the bus state before iteration `i`. -/
def sensor_task_loop (hw : Nat → Bus → Bus) : Nat → sensor_task_state → sensor_task_state
  | 0, st => st
  | n + 1, st =>
    let st1 := sensor_task_loop hw n st
    sensor_task_iter { st1 with bus := hw n st1.bus }

/-- The bus after the `max30102_read_sample` call of iteration `i` of the loop. -/
def sensor_task_read (hw : Nat → Bus → Bus) (i : Nat) (st : sensor_task_state) :
    max30102_err_t × Option max30102_sample_t × Bus :=
  max30102_read_sample (some (sensor_task_loop hw i st).sample)
    (hw i (sensor_task_loop hw i st).bus)

/-! ## Transactions and sample buses -/

/-- A burst read: a read transaction addressed to the FIFO data register. -/
def Xfer.is_burst : Xfer → Bool
  | Xfer.read reg _ _ => reg == MAX30102_REG_FIFO_DATA
  | Xfer.write _ _ _ => false

/-- A register write transaction. -/
def Xfer.is_write : Xfer → Bool
  | Xfer.write _ _ _ => true
  | Xfer.read _ _ _ => false

/-- The transactions a driver call added to the trace `before`. -/
def issued (before : Bus) (after : Bus) : List Xfer :=
  after.trace.drop before.trace.length

/-- A bus with a present handle, the given register file and FIFO stream, on
which the transactions numbered in `fail` fail and all others succeed. -/
def mk_bus (regs : Nat → Nat) (fifo : List Nat) (fail : List Nat) : Bus :=
  { handle := true, regs := regs, fifo := fifo, ok := fun n => !fail.contains n, trace := [] }

/-- A register file holding the given write pointer, overflow counter and
read pointer, the part identifier 0x15, and zero elsewhere. -/
def fifo_regs (wr ovf rd : Nat) : Nat → Nat := fun r =>
  if r = MAX30102_REG_FIFO_WR_PTR then wr
  else if r = MAX30102_REG_OVF_COUNTER then ovf
  else if r = MAX30102_REG_FIFO_RD_PTR then rd
  else if r = MAX30102_REG_PART_ID then 0x15
  else 0

/-- A sample structure with stale content, as a caller may pass it in. -/
def stale_sample : max30102_sample_t := { red := 7, ir := 9, valid := true }

/-- The sensor acting on its own between two driver calls: it moves the FIFO
pointers and the overflow counter and refills the stream; everything else,
the mode-control register included, stays as the driver left it. -/
def fifo_activity (wr ovf rd : Nat) (fifo : List Nat) (b : Bus) : Bus :=
  { b with regs := fun r =>
             if r = MAX30102_REG_FIFO_WR_PTR then wr
             else if r = MAX30102_REG_OVF_COUNTER then ovf
             else if r = MAX30102_REG_FIFO_RD_PTR then rd
             else b.regs r
           fifo := fifo }

/-- The default configuration switched to heart-rate-only mode. -/
def hr_only_config : max30102_config_t :=
  { MAX30102_DEFAULT_CONFIG with mode := MAX30102_MODE_HR_ONLY }

/-- A device that does nothing between two iterations of the polling loop. -/
def idle_hw : Nat → Bus → Bus := fun _ b => b

/-- The polling task at its first iteration, on an empty FIFO. -/
def task_start : sensor_task_state :=
  { sample := stale_sample, sample_count := 0, no_data_count := 0,
    bus := mk_bus (fifo_regs 0 0 0) [] [] }

/-- A bus on which every poll finds the FIFO empty: the handle is present,
no transaction fails, the two pointers agree, the overflow counter is zero,
and no write has been issued so far. -/
def quiet (b : Bus) : Prop :=
  b.handle = true ∧ (∀ n, b.ok n = true)
    ∧ b.regs MAX30102_REG_FIFO_WR_PTR % 256 = b.regs MAX30102_REG_FIFO_RD_PTR % 256
    ∧ b.regs MAX30102_REG_OVF_COUNTER % 256 = 0
    ∧ ∀ x ∈ b.trace, x.is_write = false

/-- The FIFO configuration byte assembled by `max30102_init`
(`uint8_t fifo_config`, max30102.c lines 132-134). -/
def fifo_config (c : max30102_config_t) : Nat :=
  ((c.sample_avg &&& 0xE0) |||
    (if c.rollover_enable then MAX30102_ROLLOVER_EN else 0) |||
    (c.almost_full_threshold &&& MAX30102_A_FULL_MASK)) % 256

/-- The SpO2 configuration byte assembled by `max30102_init`
(`uint8_t spo2_config`, max30102.c lines 141-143). -/
def spo2_config (c : max30102_config_t) : Nat :=
  ((c.adc_range &&& 0x60) ||| (c.sample_rate &&& 0x1C) ||| (c.pulse_width &&& 0x03)) % 256

/-! ## Theorems -/

/-! ### One transaction at a time -/

theorem write_reg_ok (reg data : Nat) (b : Bus) (hh : b.handle = true)
    (hok : b.ok b.trace.length = true) :
    max30102_write_reg reg data b =
      (MAX30102_OK, { b with regs := fun r => if r = reg % 256 then data % 256 else b.regs r
                             trace := b.trace ++ [Xfer.write (reg % 256) (data % 256) true] }) := by
  simp [max30102_write_reg, i2c_master_transmit, hh, hok]

theorem write_reg_fail (reg data : Nat) (b : Bus) (hh : b.handle = true)
    (hok : b.ok b.trace.length = false) :
    max30102_write_reg reg data b =
      (MAX30102_ERR_I2C, { b with trace := b.trace ++ [Xfer.write (reg % 256) (data % 256) false] }) := by
  simp [max30102_write_reg, i2c_master_transmit, hh, hok]

theorem read_reg_ok (reg : Nat) (b : Bus) (hh : b.handle = true)
    (hok : b.ok b.trace.length = true) (hreg : reg % 256 ≠ MAX30102_REG_FIFO_DATA) :
    max30102_read_reg reg b =
      (MAX30102_OK, b.regs (reg % 256) % 256,
        { b with trace := b.trace ++ [Xfer.read (reg % 256) 1 true] }) := by
  simp [max30102_read_reg, i2c_master_transmit_receive, hh, hok, hreg]

theorem read_reg_fail (reg : Nat) (b : Bus) (hh : b.handle = true)
    (hok : b.ok b.trace.length = false) :
    max30102_read_reg reg b =
      (MAX30102_ERR_I2C, 0, { b with trace := b.trace ++ [Xfer.read (reg % 256) 1 false] }) := by
  simp [max30102_read_reg, i2c_master_transmit_receive, hh, hok]

/-- C1: for write and read pointers in 0..31 the samples-available value of
`max30102_read_sample` is the forward distance `(write_ptr - read_ptr) mod 32`
on the 32-slot ring; (5,5) gives 0, (2,30) gives 4 and (30,2) gives 28. -/
theorem samples_available_eq_ring_distance (write_ptr read_ptr : Nat)
    (hw : write_ptr < 32) (hr : read_ptr < 32) :
    samples_available write_ptr read_ptr = ((write_ptr : Int) - (read_ptr : Int)) % 32
      ∧ samples_available 5 5 = 0
      ∧ samples_available 2 30 = 4
      ∧ samples_available 30 2 = 28 := by
  refine ⟨?_, by decide, by decide, by decide⟩
  unfold samples_available to_int8
  split <;> omega

/-- Witness for C1 at write pointer 2, read pointer 30. -/
theorem samples_available_eq_ring_distance_witness :
    (2 < 32 ∧ 30 < 32) ∧
      (samples_available 2 30 = ((2 : Int) - (30 : Int)) % 32
        ∧ samples_available 5 5 = 0
        ∧ samples_available 2 30 = 4
        ∧ samples_available 30 2 = 28) :=
  ⟨by decide, samples_available_eq_ring_distance 2 30 (by decide) (by decide)⟩

/-! ### Overflow recovery -/

/-- C2: when the overflow counter read by `max30102_read_sample` is greater
than 0, then for all pointer values and whatever the outcome of the recovery
writes, the call returns `MAX30102_ERR_NO_DATA`, issues no burst read of the
FIFO data register (the stream is untouched), and leaves `sample.valid = false`. -/
theorem read_sample_overflow_no_data (s0 : max30102_sample_t) (b : Bus)
    (hh : b.handle = true)
    (h0 : b.ok b.trace.length = true)
    (h1 : b.ok (b.trace.length + 1) = true)
    (h2 : b.ok (b.trace.length + 2) = true)
    (hovf : b.regs MAX30102_REG_OVF_COUNTER % 256 > 0) :
    (max30102_read_sample (some s0) b).1 = MAX30102_ERR_NO_DATA
      ∧ (max30102_read_sample (some s0) b).2.1 = some { s0 with valid := false }
      ∧ (∀ x ∈ issued b (max30102_read_sample (some s0) b).2.2, x.is_burst = false)
      ∧ (max30102_read_sample (some s0) b).2.2.fifo = b.fifo := by
  have hovf2 : 0 < b.regs 5 % 256 := hovf
  cases h3 : b.ok (b.trace.length + 3) <;>
  cases h4 : b.ok (b.trace.length + 4) <;>
  cases h5 : b.ok (b.trace.length + 5) <;>
  cases h6 : b.ok (b.trace.length + 6) <;>
  cases h7 : b.ok (b.trace.length + 7) <;>
  simp [max30102_read_sample, max30102_clear_fifo, read_reg_ok, write_reg_ok, write_reg_fail,
    hh, h0, h1, h2, h3, h4, h5, h6, h7, hovf2, issued, Xfer.is_burst,
    MAX30102_REG_FIFO_WR_PTR, MAX30102_REG_FIFO_RD_PTR, MAX30102_REG_OVF_COUNTER,
    MAX30102_REG_MODE_CONFIG, MAX30102_REG_FIFO_DATA, MAX30102_MODE_SPO2]

/-- Witness for C2: overflow counter 3, pointers 2 and 30, the shutdown write failing. -/
theorem read_sample_overflow_no_data_witness :
    (max30102_read_sample (some stale_sample) (mk_bus (fifo_regs 2 3 30) [1, 2, 3, 4, 5, 6] [3])).1
        = MAX30102_ERR_NO_DATA
      ∧ (max30102_read_sample (some stale_sample) (mk_bus (fifo_regs 2 3 30) [1, 2, 3, 4, 5, 6] [3])).2.1
        = some { stale_sample with valid := false } :=
  have h := read_sample_overflow_no_data stale_sample
    (mk_bus (fifo_regs 2 3 30) [1, 2, 3, 4, 5, 6] [3])
    (by decide) (by decide) (by decide) (by decide) (by decide)
  ⟨h.1, h.2.1⟩

/-! ### Decoding a burst -/

theorem decode_channel_eq_mod (d0 d1 d2 : Nat) (h1 : d1 < 256) (h2 : d2 < 256) :
    decode_channel d0 d1 d2 = (d0 * 65536 + d1 * 256 + d2) % 2 ^ 18 := by
  have e2 : (d1 <<< 8) ||| d2 = 2 ^ 8 * d1 + d2 := by
    rw [Nat.shiftLeft_eq, Nat.mul_comm, Nat.mul_add_lt_is_or (by omega) d1]
  have e1 : (d0 <<< 16) ||| (2 ^ 8 * d1 + d2) = 2 ^ 16 * d0 + (2 ^ 8 * d1 + d2) := by
    rw [Nat.shiftLeft_eq, Nat.mul_comm, Nat.mul_add_lt_is_or (by omega) d0]
  have e3 : (0x03FFFF : Nat) = 2 ^ 18 - 1 := by norm_num
  unfold decode_channel
  rw [Nat.or_assoc, e2, e1, e3, Nat.and_pow_two_sub_one_eq_mod]
  congr 1
  omega

/-- C3: on the read path of `max30102_read_sample` (overflow counter 0,
samples-available between 1 and 8) a burst `b0..b5` from the FIFO data
register makes the call return `MAX30102_OK` with `valid = true`,
`red = ((b0 << 16) | (b1 << 8) | b2) & 0x3FFFF` and
`ir = ((b3 << 16) | (b4 << 8) | b5) & 0x3FFFF`; both are below `2^18` and are
the 24-bit big-endian values with their top 6 bits dropped. -/
theorem read_sample_decodes_burst (s0 : max30102_sample_t) (b : Bus)
    (b0 b1 b2 b3 b4 b5 : Nat) (rest : List Nat)
    (hh : b.handle = true)
    (h0 : b.ok b.trace.length = true)
    (h1 : b.ok (b.trace.length + 1) = true)
    (h2 : b.ok (b.trace.length + 2) = true)
    (h3 : b.ok (b.trace.length + 3) = true)
    (hovf : b.regs MAX30102_REG_OVF_COUNTER % 256 = 0)
    (hlo : 1 ≤ samples_available (b.regs MAX30102_REG_FIFO_WR_PTR % 256)
      (b.regs MAX30102_REG_FIFO_RD_PTR % 256))
    (hhi : samples_available (b.regs MAX30102_REG_FIFO_WR_PTR % 256)
      (b.regs MAX30102_REG_FIFO_RD_PTR % 256) ≤ 8)
    (hfifo : b.fifo = b0 :: b1 :: b2 :: b3 :: b4 :: b5 :: rest)
    (hb0 : b0 < 256) (hb1 : b1 < 256) (hb2 : b2 < 256)
    (hb3 : b3 < 256) (hb4 : b4 < 256) (hb5 : b5 < 256) :
    (max30102_read_sample (some s0) b).1 = MAX30102_OK
      ∧ (max30102_read_sample (some s0) b).2.1 =
          some { red := ((b0 <<< 16) ||| (b1 <<< 8) ||| b2) &&& 0x3FFFF
                 ir := ((b3 <<< 16) ||| (b4 <<< 8) ||| b5) &&& 0x3FFFF
                 valid := true }
      ∧ ((b0 <<< 16) ||| (b1 <<< 8) ||| b2) &&& 0x3FFFF < 2 ^ 18
      ∧ ((b3 <<< 16) ||| (b4 <<< 8) ||| b5) &&& 0x3FFFF < 2 ^ 18
      ∧ ((b0 <<< 16) ||| (b1 <<< 8) ||| b2) &&& 0x3FFFF
          = (b0 * 65536 + b1 * 256 + b2) % 2 ^ 18
      ∧ ((b3 <<< 16) ||| (b4 <<< 8) ||| b5) &&& 0x3FFFF
          = (b3 * 65536 + b4 * 256 + b5) % 2 ^ 18
      ∧ issued b (max30102_read_sample (some s0) b).2.2 =
          [Xfer.read MAX30102_REG_FIFO_WR_PTR 1 true, Xfer.read MAX30102_REG_FIFO_RD_PTR 1 true,
           Xfer.read MAX30102_REG_OVF_COUNTER 1 true, Xfer.read MAX30102_REG_FIFO_DATA 6 true] := by
  have hovf2 : b.regs 5 % 256 = 0 := hovf
  have hle : ¬ samples_available (b.regs 4 % 256) (b.regs 6 % 256) ≤ 0 := by
    have := hlo
    simp only [MAX30102_REG_FIFO_WR_PTR, MAX30102_REG_FIFO_RD_PTR] at this
    omega
  have hgt : ¬ 8 < samples_available (b.regs 4 % 256) (b.regs 6 % 256) := by
    have := hhi
    simp only [MAX30102_REG_FIFO_WR_PTR, MAX30102_REG_FIFO_RD_PTR] at this
    omega
  have m0 : b0 % 256 = b0 := Nat.mod_eq_of_lt hb0
  have m1 : b1 % 256 = b1 := Nat.mod_eq_of_lt hb1
  have m2 : b2 % 256 = b2 := Nat.mod_eq_of_lt hb2
  have m3 : b3 % 256 = b3 := Nat.mod_eq_of_lt hb3
  have m4 : b4 % 256 = b4 := Nat.mod_eq_of_lt hb4
  have m5 : b5 % 256 = b5 := Nat.mod_eq_of_lt hb5
  have er := decode_channel_eq_mod b0 b1 b2 hb1 hb2
  have ei := decode_channel_eq_mod b3 b4 b5 hb4 hb5
  unfold decode_channel at er ei
  refine ⟨?_, ?_, ?_, ?_, er, ei, ?_⟩
  · simp [max30102_read_sample, max30102_read_fifo_data, i2c_master_transmit_receive,
      read_reg_ok, hh, h0, h1, h2, h3, hovf2, hle, hgt,
      MAX30102_REG_FIFO_WR_PTR, MAX30102_REG_FIFO_RD_PTR, MAX30102_REG_OVF_COUNTER,
      MAX30102_REG_FIFO_DATA]
  · simp [max30102_read_sample, max30102_read_fifo_data, i2c_master_transmit_receive,
      read_reg_ok, hh, h0, h1, h2, h3, hovf2, hle, hgt, hfifo, decode_channel,
      List.range_succ, m0, m1, m2, m3, m4, m5,
      MAX30102_REG_FIFO_WR_PTR, MAX30102_REG_FIFO_RD_PTR, MAX30102_REG_OVF_COUNTER,
      MAX30102_REG_FIFO_DATA]
  · rw [er]; exact Nat.mod_lt _ (by norm_num)
  · rw [ei]; exact Nat.mod_lt _ (by norm_num)
  · simp [max30102_read_sample, max30102_read_fifo_data, i2c_master_transmit_receive,
      read_reg_ok, hh, h0, h1, h2, h3, hovf2, hle, hgt, issued,
      MAX30102_REG_FIFO_WR_PTR, MAX30102_REG_FIFO_RD_PTR, MAX30102_REG_OVF_COUNTER,
      MAX30102_REG_FIFO_DATA]

/-- Witness for C3: pointers 5 and 3, burst 0x12 0x34 0x56 0x78 0x9A 0xBC. -/
theorem read_sample_decodes_burst_witness :
    (max30102_read_sample (some stale_sample)
        (mk_bus (fifo_regs 5 0 3) [0x12, 0x34, 0x56, 0x78, 0x9A, 0xBC, 0x01] [])).1 = MAX30102_OK
      ∧ (max30102_read_sample (some stale_sample)
        (mk_bus (fifo_regs 5 0 3) [0x12, 0x34, 0x56, 0x78, 0x9A, 0xBC, 0x01] [])).2.1 =
          some { red := ((0x12 <<< 16) ||| (0x34 <<< 8) ||| 0x56) &&& 0x3FFFF
                 ir := ((0x78 <<< 16) ||| (0x9A <<< 8) ||| 0xBC) &&& 0x3FFFF
                 valid := true } :=
  have h := read_sample_decodes_burst stale_sample
    (mk_bus (fifo_regs 5 0 3) [0x12, 0x34, 0x56, 0x78, 0x9A, 0xBC, 0x01] [])
    0x12 0x34 0x56 0x78 0x9A 0xBC [0x01]
    (by decide) (by decide) (by decide) (by decide) (by decide) (by decide)
    (by decide) (by decide) rfl
    (by decide) (by decide) (by decide) (by decide) (by decide) (by decide)
  ⟨h.1, h.2.1⟩

/-- C4 as stated fails: the red channel of the burst
`[0x12, 0x34, 0x56, 0x78, 0x9A, 0xBC]` is not decoded to 0x03456, because the
two low bits of the first byte lie inside the 18-bit mask. -/
theorem read_sample_example_red_not_03456 :
    (max30102_read_sample (some stale_sample)
        (mk_bus (fifo_regs 1 0 0) [0x12, 0x34, 0x56, 0x78, 0x9A, 0xBC] [])).2.1 ≠
          some { red := 0x03456, ir := 0x09ABC, valid := true }
      ∧ decode_channel 0x12 0x34 0x56 ≠ 0x03456 := by
  decide

/-- C4, amended: the burst `[0x12, 0x34, 0x56, 0x78, 0x9A, 0xBC]` is decoded by
`max30102_read_sample` to red = 0x23456 and ir = 0x09ABC. -/
theorem read_sample_decodes_example :
    (max30102_read_sample (some stale_sample)
        (mk_bus (fifo_regs 1 0 0) [0x12, 0x34, 0x56, 0x78, 0x9A, 0xBC] [])).1 = MAX30102_OK
      ∧ (max30102_read_sample (some stale_sample)
        (mk_bus (fifo_regs 1 0 0) [0x12, 0x34, 0x56, 0x78, 0x9A, 0xBC] [])).2.1 =
          some { red := 0x23456, ir := 0x09ABC, valid := true }
      ∧ decode_channel 0x12 0x34 0x56 = 0x23456
      ∧ decode_channel 0x78 0x9A 0xBC = 0x09ABC := by
  decide

/-! ### Backlog over the threshold -/

/-- C5: with overflow counter 0 and pointer bytes (in particular any in 0..31)
whose samples-available exceeds 8, `max30102_read_sample` returns `MAX30102_ERR_NO_DATA` without a
burst read, and once the three clearing writes are through, the write pointer,
overflow counter and read pointer registers all hold zero. -/
theorem read_sample_backlog_clears (s0 : max30102_sample_t) (b : Bus)
    (hh : b.handle = true)
    (h0 : b.ok b.trace.length = true)
    (h1 : b.ok (b.trace.length + 1) = true)
    (h2 : b.ok (b.trace.length + 2) = true)
    (hovf : b.regs MAX30102_REG_OVF_COUNTER % 256 = 0)
    (hgt : samples_available (b.regs MAX30102_REG_FIFO_WR_PTR % 256)
      (b.regs MAX30102_REG_FIFO_RD_PTR % 256) > 8) :
    (max30102_read_sample (some s0) b).1 = MAX30102_ERR_NO_DATA
      ∧ (max30102_read_sample (some s0) b).2.1 = some { s0 with valid := false }
      ∧ (∀ x ∈ issued b (max30102_read_sample (some s0) b).2.2, x.is_burst = false)
      ∧ (max30102_read_sample (some s0) b).2.2.fifo = b.fifo
      ∧ (b.ok (b.trace.length + 3) = true → b.ok (b.trace.length + 4) = true →
          b.ok (b.trace.length + 5) = true →
          (max30102_read_sample (some s0) b).2.2.regs MAX30102_REG_FIFO_WR_PTR = 0
            ∧ (max30102_read_sample (some s0) b).2.2.regs MAX30102_REG_OVF_COUNTER = 0
            ∧ (max30102_read_sample (some s0) b).2.2.regs MAX30102_REG_FIFO_RD_PTR = 0
            ∧ issued b (max30102_read_sample (some s0) b).2.2 =
                [Xfer.read MAX30102_REG_FIFO_WR_PTR 1 true,
                 Xfer.read MAX30102_REG_FIFO_RD_PTR 1 true,
                 Xfer.read MAX30102_REG_OVF_COUNTER 1 true,
                 Xfer.write MAX30102_REG_FIFO_WR_PTR 0 true,
                 Xfer.write MAX30102_REG_OVF_COUNTER 0 true,
                 Xfer.write MAX30102_REG_FIFO_RD_PTR 0 true]) := by
  have hovf2 : b.regs 5 % 256 = 0 := hovf
  have hgt2 : 8 < samples_available (b.regs 4 % 256) (b.regs 6 % 256) := hgt
  have hle : ¬ samples_available (b.regs 4 % 256) (b.regs 6 % 256) ≤ 0 := by omega
  cases h3 : b.ok (b.trace.length + 3) <;>
  cases h4 : b.ok (b.trace.length + 4) <;>
  cases h5 : b.ok (b.trace.length + 5) <;>
  simp [max30102_read_sample, max30102_clear_fifo, read_reg_ok, write_reg_ok, write_reg_fail,
    hh, h0, h1, h2, h3, h4, h5, hovf2, hgt2, hle, issued, Xfer.is_burst,
    MAX30102_REG_FIFO_WR_PTR, MAX30102_REG_FIFO_RD_PTR, MAX30102_REG_OVF_COUNTER,
    MAX30102_REG_FIFO_DATA]

/-- Witness for C5: write pointer 30, read pointer 2 (28 samples pending). -/
theorem read_sample_backlog_clears_witness :
    (max30102_read_sample (some stale_sample) (mk_bus (fifo_regs 30 0 2) [] [])).1
        = MAX30102_ERR_NO_DATA
      ∧ (max30102_read_sample (some stale_sample)
          (mk_bus (fifo_regs 30 0 2) [] [])).2.2.regs MAX30102_REG_FIFO_WR_PTR = 0
      ∧ (max30102_read_sample (some stale_sample)
          (mk_bus (fifo_regs 30 0 2) [] [])).2.2.regs MAX30102_REG_OVF_COUNTER = 0
      ∧ (max30102_read_sample (some stale_sample)
          (mk_bus (fifo_regs 30 0 2) [] [])).2.2.regs MAX30102_REG_FIFO_RD_PTR = 0 :=
  have h := read_sample_backlog_clears stale_sample (mk_bus (fifo_regs 30 0 2) [] [])
    (by decide) (by decide) (by decide) (by decide) (by decide) (by decide)
  have g := h.2.2.2.2 (by decide) (by decide) (by decide)
  ⟨h.1, g.1, g.2.1, g.2.2.1⟩

/-! ### Transport failures inside `max30102_read_sample` -/

/-- C6, the code at a failing input: with overflow counter 1 and the shutdown
write of the recovery failing on the bus, `max30102_read_sample` does not
abort with `MAX30102_ERR_I2C` but goes on to the clearing and restart writes
and returns `MAX30102_ERR_NO_DATA`; likewise a failed clearing write in the
backlog branch is answered with `MAX30102_ERR_NO_DATA`, the write pointer
register still holding 30. -/
theorem read_sample_swallows_write_failure :
    (max30102_read_sample (some stale_sample) (mk_bus (fifo_regs 0 1 0) [] [3])).1
        = MAX30102_ERR_NO_DATA
      ∧ issued (mk_bus (fifo_regs 0 1 0) [] [3])
          (max30102_read_sample (some stale_sample) (mk_bus (fifo_regs 0 1 0) [] [3])).2.2 =
          [Xfer.read 4 1 true, Xfer.read 6 1 true, Xfer.read 5 1 true,
           Xfer.write 9 0x80 false,
           Xfer.write 4 0 true, Xfer.write 5 0 true, Xfer.write 6 0 true,
           Xfer.write 9 3 true]
      ∧ (max30102_read_sample (some stale_sample) (mk_bus (fifo_regs 30 0 2) [] [3])).1
        = MAX30102_ERR_NO_DATA
      ∧ issued (mk_bus (fifo_regs 30 0 2) [] [3])
          (max30102_read_sample (some stale_sample) (mk_bus (fifo_regs 30 0 2) [] [3])).2.2 =
          [Xfer.read 4 1 true, Xfer.read 6 1 true, Xfer.read 5 1 true,
           Xfer.write 4 0 false]
      ∧ (max30102_read_sample (some stale_sample)
          (mk_bus (fifo_regs 30 0 2) [] [3])).2.2.regs MAX30102_REG_FIFO_WR_PTR = 30 := by
  decide

/-! ### `max30102_clear_fifo` -/

/-- C10: when its writes succeed, `max30102_clear_fifo` returns OK having
written 0x00 to the registers 0x04, 0x05 and 0x06, in that order and nothing
else; no other register changes, and the pointer reads that follow (write
pointer, read pointer, overflow counter) return 0, 0 and 0, whatever the
registers held before. -/
theorem clear_fifo_then_pointers_zero (b : Bus)
    (hh : b.handle = true)
    (h0 : b.ok b.trace.length = true)
    (h1 : b.ok (b.trace.length + 1) = true)
    (h2 : b.ok (b.trace.length + 2) = true) :
    (max30102_clear_fifo b).1 = MAX30102_OK
      ∧ issued b (max30102_clear_fifo b).2 =
          [Xfer.write MAX30102_REG_FIFO_WR_PTR 0x00 true,
           Xfer.write MAX30102_REG_OVF_COUNTER 0x00 true,
           Xfer.write MAX30102_REG_FIFO_RD_PTR 0x00 true]
      ∧ (∀ r, r ≠ MAX30102_REG_FIFO_WR_PTR → r ≠ MAX30102_REG_OVF_COUNTER →
          r ≠ MAX30102_REG_FIFO_RD_PTR → (max30102_clear_fifo b).2.regs r = b.regs r)
      ∧ (b.ok (b.trace.length + 3) = true → b.ok (b.trace.length + 4) = true →
          b.ok (b.trace.length + 5) = true →
          (max30102_read_reg MAX30102_REG_FIFO_WR_PTR (max30102_clear_fifo b).2).1 = MAX30102_OK
          ∧ (max30102_read_reg MAX30102_REG_FIFO_WR_PTR (max30102_clear_fifo b).2).2.1 = 0
          ∧ (max30102_read_reg MAX30102_REG_FIFO_RD_PTR
              (max30102_read_reg MAX30102_REG_FIFO_WR_PTR (max30102_clear_fifo b).2).2.2).1
              = MAX30102_OK
          ∧ (max30102_read_reg MAX30102_REG_FIFO_RD_PTR
              (max30102_read_reg MAX30102_REG_FIFO_WR_PTR (max30102_clear_fifo b).2).2.2).2.1 = 0
          ∧ (max30102_read_reg MAX30102_REG_OVF_COUNTER
              (max30102_read_reg MAX30102_REG_FIFO_RD_PTR
                (max30102_read_reg MAX30102_REG_FIFO_WR_PTR
                  (max30102_clear_fifo b).2).2.2).2.2).1 = MAX30102_OK
          ∧ (max30102_read_reg MAX30102_REG_OVF_COUNTER
              (max30102_read_reg MAX30102_REG_FIFO_RD_PTR
                (max30102_read_reg MAX30102_REG_FIFO_WR_PTR
                  (max30102_clear_fifo b).2).2.2).2.2).2.1 = 0) := by
  refine ⟨?_, ?_, ?_, ?_⟩
  · simp [max30102_clear_fifo, write_reg_ok, hh, h0, h1, h2]
  · simp [max30102_clear_fifo, write_reg_ok, hh, h0, h1, h2, issued,
      MAX30102_REG_FIFO_WR_PTR, MAX30102_REG_FIFO_RD_PTR, MAX30102_REG_OVF_COUNTER]
  · intro r r4 r5 r6
    have r4' : r ≠ 4 := r4
    have r5' : r ≠ 5 := r5
    have r6' : r ≠ 6 := r6
    simp [max30102_clear_fifo, write_reg_ok, hh, h0, h1, h2, r4', r5', r6',
      MAX30102_REG_FIFO_WR_PTR, MAX30102_REG_FIFO_RD_PTR, MAX30102_REG_OVF_COUNTER]
  · intro h3 h4 h5
    simp [max30102_clear_fifo, write_reg_ok, read_reg_ok, hh, h0, h1, h2, h3, h4, h5,
      MAX30102_REG_FIFO_WR_PTR, MAX30102_REG_FIFO_RD_PTR, MAX30102_REG_OVF_COUNTER,
      MAX30102_REG_FIFO_DATA]

/-- Witness for C10: registers holding 30, 7 and 2 before the clear. -/
theorem clear_fifo_then_pointers_zero_witness :
    (max30102_clear_fifo (mk_bus (fifo_regs 30 7 2) [] [])).1 = MAX30102_OK
      ∧ issued (mk_bus (fifo_regs 30 7 2) [] []) (max30102_clear_fifo (mk_bus (fifo_regs 30 7 2) [] [])).2 =
          [Xfer.write MAX30102_REG_FIFO_WR_PTR 0x00 true,
           Xfer.write MAX30102_REG_OVF_COUNTER 0x00 true,
           Xfer.write MAX30102_REG_FIFO_RD_PTR 0x00 true]
      ∧ (max30102_read_reg MAX30102_REG_FIFO_WR_PTR
          (max30102_clear_fifo (mk_bus (fifo_regs 30 7 2) [] [])).2).2.1 = 0 :=
  have h := clear_fifo_then_pointers_zero (mk_bus (fifo_regs 30 7 2) [] [])
    (by decide) (by decide) (by decide) (by decide)
  have g := h.2.2.2 (by decide) (by decide) (by decide)
  ⟨h.1, h.2.1, g.2.1⟩

/-! ### `max30102_init` -/

theorem init_success (c : max30102_config_t) (b : Bus)
    (hh : b.handle = true) (hok : ∀ n, b.ok n = true)
    (hid : b.regs MAX30102_REG_PART_ID % 256 = 0x15) :
    (max30102_init (some c) b).1 = MAX30102_OK
      ∧ (max30102_init (some c) b).2.handle = true
      ∧ (max30102_init (some c) b).2.ok = b.ok
      ∧ (max30102_init (some c) b).2.regs MAX30102_REG_MODE_CONFIG = c.mode % 256 := by
  have hid2 : b.regs 255 % 256 = 21 := hid
  simp [max30102_init, max30102_reset, max30102_get_part_id, max30102_clear_fifo,
    max30102_set_led_power, write_reg_ok, read_reg_ok, hh, hok, hid2,
    MAX30102_REG_FIFO_WR_PTR, MAX30102_REG_FIFO_RD_PTR, MAX30102_REG_OVF_COUNTER,
    MAX30102_REG_MODE_CONFIG, MAX30102_REG_FIFO_DATA, MAX30102_REG_PART_ID,
    MAX30102_REG_FIFO_CONFIG, MAX30102_REG_SPO2_CONFIG, MAX30102_REG_LED1_PA,
    MAX30102_REG_LED2_PA]

theorem overflow_recovery_sequence (s0 : max30102_sample_t) (b : Bus)
    (hh : b.handle = true) (hok : ∀ n, b.ok n = true)
    (hovf : b.regs MAX30102_REG_OVF_COUNTER % 256 > 0) :
    (max30102_read_sample (some s0) b).1 = MAX30102_ERR_NO_DATA
      ∧ issued b (max30102_read_sample (some s0) b).2.2 =
          [Xfer.read MAX30102_REG_FIFO_WR_PTR 1 true, Xfer.read MAX30102_REG_FIFO_RD_PTR 1 true,
           Xfer.read MAX30102_REG_OVF_COUNTER 1 true,
           Xfer.write MAX30102_REG_MODE_CONFIG 0x80 true,
           Xfer.write MAX30102_REG_FIFO_WR_PTR 0 true,
           Xfer.write MAX30102_REG_OVF_COUNTER 0 true,
           Xfer.write MAX30102_REG_FIFO_RD_PTR 0 true,
           Xfer.write MAX30102_REG_MODE_CONFIG MAX30102_MODE_SPO2 true]
      ∧ (max30102_read_sample (some s0) b).2.2.regs MAX30102_REG_MODE_CONFIG
          = MAX30102_MODE_SPO2 := by
  have hovf2 : 0 < b.regs 5 % 256 := hovf
  simp [max30102_read_sample, max30102_clear_fifo, read_reg_ok, write_reg_ok,
    hh, hok, hovf2, issued,
    MAX30102_REG_FIFO_WR_PTR, MAX30102_REG_FIFO_RD_PTR, MAX30102_REG_OVF_COUNTER,
    MAX30102_REG_MODE_CONFIG, MAX30102_REG_FIFO_DATA, MAX30102_MODE_SPO2]

/-- C7 as stated fails for heart-rate-only mode: after a successful
`max30102_init` with mode 0x02 the mode-control register holds 0x02, and the
overflow recovery of a later `max30102_read_sample` ends with a write of 0x03
to mode-control, which then holds 0x03 and not the configured mode. -/
theorem overflow_recovery_hr_only_resumes_in_spo2 :
    (max30102_init (some hr_only_config) (mk_bus (fifo_regs 0 0 0) [] [])).1 = MAX30102_OK
      ∧ (max30102_init (some hr_only_config)
          (mk_bus (fifo_regs 0 0 0) [] [])).2.regs MAX30102_REG_MODE_CONFIG = hr_only_config.mode
      ∧ issued (fifo_activity 0 1 0 []
            (max30102_init (some hr_only_config) (mk_bus (fifo_regs 0 0 0) [] [])).2)
          (max30102_read_sample (some stale_sample) (fifo_activity 0 1 0 []
            (max30102_init (some hr_only_config) (mk_bus (fifo_regs 0 0 0) [] [])).2)).2.2 =
          [Xfer.read 4 1 true, Xfer.read 6 1 true, Xfer.read 5 1 true,
           Xfer.write 9 0x80 true,
           Xfer.write 4 0 true, Xfer.write 5 0 true, Xfer.write 6 0 true,
           Xfer.write 9 0x03 true]
      ∧ (max30102_read_sample (some stale_sample) (fifo_activity 0 1 0 []
            (max30102_init (some hr_only_config)
              (mk_bus (fifo_regs 0 0 0) [] [])).2)).2.2.regs MAX30102_REG_MODE_CONFIG
          ≠ hr_only_config.mode := by
  decide

/-- C7, amended: after a successful `max30102_init` with any configuration,
when a later `max30102_read_sample` reads an overflow counter above 0 (its
transactions succeeding), the recovery writes 0x80 to mode-control, clears the
three FIFO registers, and then writes `MAX30102_MODE_SPO2` (0x03) to
mode-control; the register holds the configured mode again exactly when that
mode is SpO2. -/
theorem overflow_recovery_restarts_in_spo2 (c : max30102_config_t) (b0 : Bus)
    (s0 : max30102_sample_t) (wr ovf rd : Nat) (fifo : List Nat)
    (hh : b0.handle = true) (hok : ∀ n, b0.ok n = true)
    (hid : b0.regs MAX30102_REG_PART_ID % 256 = 0x15)
    (hmode : c.mode < 256)
    (hovf : ovf % 256 > 0) :
    (max30102_init (some c) b0).1 = MAX30102_OK
      ∧ (max30102_init (some c) b0).2.regs MAX30102_REG_MODE_CONFIG = c.mode
      ∧ (max30102_read_sample (some s0)
          (fifo_activity wr ovf rd fifo (max30102_init (some c) b0).2)).1 = MAX30102_ERR_NO_DATA
      ∧ issued (fifo_activity wr ovf rd fifo (max30102_init (some c) b0).2)
          (max30102_read_sample (some s0)
            (fifo_activity wr ovf rd fifo (max30102_init (some c) b0).2)).2.2 =
          [Xfer.read MAX30102_REG_FIFO_WR_PTR 1 true, Xfer.read MAX30102_REG_FIFO_RD_PTR 1 true,
           Xfer.read MAX30102_REG_OVF_COUNTER 1 true,
           Xfer.write MAX30102_REG_MODE_CONFIG 0x80 true,
           Xfer.write MAX30102_REG_FIFO_WR_PTR 0 true,
           Xfer.write MAX30102_REG_OVF_COUNTER 0 true,
           Xfer.write MAX30102_REG_FIFO_RD_PTR 0 true,
           Xfer.write MAX30102_REG_MODE_CONFIG MAX30102_MODE_SPO2 true]
      ∧ (max30102_read_sample (some s0)
          (fifo_activity wr ovf rd fifo
            (max30102_init (some c) b0).2)).2.2.regs MAX30102_REG_MODE_CONFIG = MAX30102_MODE_SPO2
      ∧ ((max30102_read_sample (some s0)
          (fifo_activity wr ovf rd fifo
            (max30102_init (some c) b0).2)).2.2.regs MAX30102_REG_MODE_CONFIG = c.mode
          ↔ c.mode = MAX30102_MODE_SPO2) := by
  obtain ⟨i1, i2, i3, i4⟩ := init_success c b0 hh hok hid
  have hh2 : (fifo_activity wr ovf rd fifo (max30102_init (some c) b0).2).handle = true := by
    simpa [fifo_activity] using i2
  have hok2 : ∀ n, (fifo_activity wr ovf rd fifo (max30102_init (some c) b0).2).ok n = true := by
    intro n
    simp [fifo_activity, i3, hok]
  have hovf2 : (fifo_activity wr ovf rd fifo (max30102_init (some c) b0).2).regs
      MAX30102_REG_OVF_COUNTER % 256 > 0 := by
    simpa [fifo_activity] using hovf
  obtain ⟨r1, r2, r3⟩ := overflow_recovery_sequence s0 _ hh2 hok2 hovf2
  have i4' : (max30102_init (some c) b0).2.regs MAX30102_REG_MODE_CONFIG = c.mode := by
    rw [i4]; exact Nat.mod_eq_of_lt hmode
  refine ⟨i1, i4', r1, r2, r3, ?_⟩
  rw [r3]
  exact eq_comm

/-- Witness for C7 (amended): the default configuration on a bus with part
identifier 0x15, the overflow counter at 1 afterwards. -/
theorem overflow_recovery_restarts_in_spo2_witness :
    (max30102_init (some MAX30102_DEFAULT_CONFIG) (mk_bus (fifo_regs 0 0 0) [] [])).1 = MAX30102_OK
      ∧ (max30102_read_sample (some stale_sample)
          (fifo_activity 0 1 0 [] (max30102_init (some MAX30102_DEFAULT_CONFIG)
            (mk_bus (fifo_regs 0 0 0) [] [])).2)).2.2.regs MAX30102_REG_MODE_CONFIG
          = MAX30102_MODE_SPO2 :=
  have h := overflow_recovery_restarts_in_spo2 MAX30102_DEFAULT_CONFIG
    (mk_bus (fifo_regs 0 0 0) [] []) stale_sample 0 1 0 []
    (by decide) (fun _ => rfl) (by decide) (by decide) (by decide)
  ⟨h.1, h.2.2.2.2.1⟩

/-- C8: with the handle present and the shutdown and reset writes through, a
part identifier other than 0x15 makes `max30102_init` return
`MAX30102_ERR_INIT`; the identifier read is its last transaction, so no write
to mode-control (or to any register) follows it. -/
theorem init_rejects_unexpected_part_id (c : max30102_config_t) (b : Bus)
    (hh : b.handle = true)
    (h0 : b.ok b.trace.length = true)
    (h1 : b.ok (b.trace.length + 1) = true)
    (h2 : b.ok (b.trace.length + 2) = true)
    (hid : b.regs MAX30102_REG_PART_ID % 256 ≠ 0x15) :
    (max30102_init (some c) b).1 = MAX30102_ERR_INIT
      ∧ issued b (max30102_init (some c) b).2 =
          [Xfer.write MAX30102_REG_MODE_CONFIG 0x80 true,
           Xfer.write MAX30102_REG_MODE_CONFIG 0x40 true,
           Xfer.read MAX30102_REG_PART_ID 1 true] := by
  have hid2 : ¬ b.regs 255 % 256 = 21 := hid
  simp [max30102_init, max30102_reset, max30102_get_part_id, write_reg_ok, read_reg_ok,
    hh, h0, h1, h2, hid2, issued,
    MAX30102_REG_MODE_CONFIG, MAX30102_REG_FIFO_DATA, MAX30102_REG_PART_ID]

/-- Witness for C8: a device answering 0x11 for its part identifier. -/
theorem init_rejects_unexpected_part_id_witness :
    (max30102_init (some MAX30102_DEFAULT_CONFIG)
        (mk_bus (fun r => if r = MAX30102_REG_PART_ID then 0x11 else 0) [] [])).1
        = MAX30102_ERR_INIT
      ∧ issued (mk_bus (fun r => if r = MAX30102_REG_PART_ID then 0x11 else 0) [] [])
          (max30102_init (some MAX30102_DEFAULT_CONFIG)
            (mk_bus (fun r => if r = MAX30102_REG_PART_ID then 0x11 else 0) [] [])).2 =
          [Xfer.write MAX30102_REG_MODE_CONFIG 0x80 true,
           Xfer.write MAX30102_REG_MODE_CONFIG 0x40 true,
           Xfer.read MAX30102_REG_PART_ID 1 true] :=
  init_rejects_unexpected_part_id MAX30102_DEFAULT_CONFIG
    (mk_bus (fun r => if r = MAX30102_REG_PART_ID then 0x11 else 0) [] [])
    (by decide) (by decide) (by decide) (by decide) (by decide)

/-! ### The polling loop -/

theorem sensor_task_iter_no_data (st : sensor_task_state)
    (hnd : (max30102_read_sample (some st.sample) st.bus).1 = MAX30102_ERR_NO_DATA)
    (hc : st.no_data_count < 100) :
    (sensor_task_iter st).no_data_count = st.no_data_count + 1
      ∧ (sensor_task_iter st).bus = (max30102_read_sample (some st.sample) st.bus).2.2 := by
  have hm : (st.no_data_count + 1) % 4294967296 = st.no_data_count + 1 :=
    Nat.mod_eq_of_lt (by omega)
  have hle : ¬ 100 < st.no_data_count + 1 := by omega
  simp [sensor_task_iter, hnd, hm, hle]

theorem sensor_task_iter_resync (st : sensor_task_state)
    (hnd : (max30102_read_sample (some st.sample) st.bus).1 = MAX30102_ERR_NO_DATA)
    (hc : st.no_data_count = 100) :
    (sensor_task_iter st).no_data_count = 0
      ∧ (sensor_task_iter st).bus =
          (max30102_init (some MAX30102_DEFAULT_CONFIG)
            (max30102_reset (max30102_read_sample (some st.sample) st.bus).2.2).2).2 := by
  simp [sensor_task_iter, hnd, hc]

theorem sensor_task_loop_succ (hw : Nat → Bus → Bus) (n : Nat) (st : sensor_task_state) :
    sensor_task_loop hw (n + 1) st =
      sensor_task_iter
        { sensor_task_loop hw n st with bus := hw n (sensor_task_loop hw n st).bus } := rfl

theorem sensor_task_loop_counts (hw : Nat → Bus → Bus) (st : sensor_task_state)
    (h0 : st.no_data_count = 0) :
    ∀ k, k ≤ 100 →
      (∀ i, i < k → (sensor_task_read hw i st).1 = MAX30102_ERR_NO_DATA) →
      (sensor_task_loop hw k st).no_data_count = k := by
  intro k
  induction k with
  | zero => intro _ _; simpa [sensor_task_loop] using h0
  | succ n ih =>
    intro hk hnd
    have hn := ih (by omega) (fun i hi => hnd i (by omega))
    have hr := hnd n (by omega)
    have step := sensor_task_iter_no_data
      { sensor_task_loop hw n st with bus := hw n (sensor_task_loop hw n st).bus }
      (by simpa [sensor_task_read] using hr) (by simp only [hn]; omega)
    simp only [sensor_task_loop]
    rw [step.1]
    simp [hn]

theorem read_sample_quiet (s0 : max30102_sample_t) (b : Bus) (hq : quiet b) :
    (max30102_read_sample (some s0) b).1 = MAX30102_ERR_NO_DATA
      ∧ quiet (max30102_read_sample (some s0) b).2.2 := by
  obtain ⟨hh, hok, hp, hovf, htr⟩ := hq
  have hp2 : b.regs 4 % 256 = b.regs 6 % 256 := hp
  have hovf2 : b.regs 5 % 256 = 0 := hovf
  have hs : samples_available (b.regs 6 % 256) (b.regs 6 % 256) ≤ 0 := by
    simp [samples_available, to_int8]
  refine ⟨?_, ?_, ?_, ?_, ?_, ?_⟩
  · simp [max30102_read_sample, read_reg_ok, hh, hok, hp2, hovf2, hs,
      MAX30102_REG_FIFO_WR_PTR, MAX30102_REG_FIFO_RD_PTR, MAX30102_REG_OVF_COUNTER,
      MAX30102_REG_FIFO_DATA]
  · simp [max30102_read_sample, read_reg_ok, hh, hok, hp2, hovf2, hs,
      MAX30102_REG_FIFO_WR_PTR, MAX30102_REG_FIFO_RD_PTR, MAX30102_REG_OVF_COUNTER,
      MAX30102_REG_FIFO_DATA]
  · intro n
    simp [max30102_read_sample, read_reg_ok, hh, hok, hp2, hovf2, hs,
      MAX30102_REG_FIFO_WR_PTR, MAX30102_REG_FIFO_RD_PTR, MAX30102_REG_OVF_COUNTER,
      MAX30102_REG_FIFO_DATA]
  · simp [max30102_read_sample, read_reg_ok, hh, hok, hp2, hovf2, hs,
      MAX30102_REG_FIFO_WR_PTR, MAX30102_REG_FIFO_RD_PTR, MAX30102_REG_OVF_COUNTER,
      MAX30102_REG_FIFO_DATA]
  · simp [max30102_read_sample, read_reg_ok, hh, hok, hp2, hovf2, hs,
      MAX30102_REG_FIFO_WR_PTR, MAX30102_REG_FIFO_RD_PTR, MAX30102_REG_OVF_COUNTER,
      MAX30102_REG_FIFO_DATA]
  · intro x hx
    have hx2 : x ∈ b.trace ++ [Xfer.read 4 1 true, Xfer.read 6 1 true, Xfer.read 5 1 true] := by
      simpa [max30102_read_sample, read_reg_ok, hh, hok, hp2, hovf2, hs,
        MAX30102_REG_FIFO_WR_PTR, MAX30102_REG_FIFO_RD_PTR, MAX30102_REG_OVF_COUNTER,
        MAX30102_REG_FIFO_DATA] using hx
    rcases List.mem_append.mp hx2 with h | h
    · exact htr x h
    · simp at h
      rcases h with h | h | h <;> simp [h, Xfer.is_write]

theorem idle_loop_quiet (st : sensor_task_state) (h0 : st.no_data_count = 0)
    (hq : quiet st.bus) :
    ∀ k, k ≤ 100 →
      (sensor_task_loop idle_hw k st).no_data_count = k
        ∧ quiet (sensor_task_loop idle_hw k st).bus := by
  intro k
  induction k with
  | zero => intro _; exact ⟨by simpa [sensor_task_loop] using h0, by simpa [sensor_task_loop] using hq⟩
  | succ n ih =>
    intro hk
    obtain ⟨hn, hqn⟩ := ih (by omega)
    have hr := read_sample_quiet (sensor_task_loop idle_hw n st).sample
      (sensor_task_loop idle_hw n st).bus hqn
    have step := sensor_task_iter_no_data
      { sensor_task_loop idle_hw n st with bus := idle_hw n (sensor_task_loop idle_hw n st).bus }
      (by simpa [idle_hw] using hr.1) (by simp only [hn]; omega)
    simp only [sensor_task_loop]
    rw [step.1, step.2]
    exact ⟨by simp [hn], by simpa [idle_hw] using hr.2⟩

theorem idle_read_no_data (st : sensor_task_state) (h0 : st.no_data_count = 0)
    (hq : quiet st.bus) (i : Nat) (hi : i ≤ 100) :
    (sensor_task_read idle_hw i st).1 = MAX30102_ERR_NO_DATA := by
  have h := (idle_loop_quiet st h0 hq i hi).2
  simpa [sensor_task_read, idle_hw] using
    (read_sample_quiet (sensor_task_loop idle_hw i st).sample _ h).1

theorem task_start_quiet : quiet task_start.bus := by
  refine ⟨rfl, fun _ => rfl, rfl, rfl, ?_⟩
  intro x hx
  simp [task_start, mk_bus] at hx

/-- C9 as stated fails: from a no-data counter of 0, 100 consecutive polls of
an empty FIFO all return `MAX30102_ERR_NO_DATA`, and afterwards the counter is
100 (not 0) and the task has issued no register write at all, hence neither a
reset nor an initialization. -/
theorem sensor_task_no_resync_after_100 :
    task_start.no_data_count = 0
      ∧ (∀ i, i < 100 → (sensor_task_read idle_hw i task_start).1 = MAX30102_ERR_NO_DATA)
      ∧ (sensor_task_loop idle_hw 100 task_start).no_data_count = 100
      ∧ (∀ x ∈ (sensor_task_loop idle_hw 100 task_start).bus.trace, x.is_write = false) := by
  have h := idle_loop_quiet task_start rfl task_start_quiet 100 (by omega)
  refine ⟨rfl, ?_, h.1, h.2.2.2.2.2⟩
  intro i hi
  exact idle_read_no_data task_start rfl task_start_quiet i (by omega)

/-- C9, amended: from a no-data counter of 0, during the first 100 consecutive
iterations in which `max30102_read_sample` returns `MAX30102_ERR_NO_DATA` the
counter only counts up and the task does nothing on the bus beyond the read;
in the 101st such iteration the task issues `max30102_reset` followed by
`max30102_init` with `MAX30102_DEFAULT_CONFIG`, and the counter is 0 afterwards. -/
theorem sensor_task_resync_after_101 (hw : Nat → Bus → Bus) (st : sensor_task_state)
    (h0 : st.no_data_count = 0)
    (hnd : ∀ i, i < 101 → (sensor_task_read hw i st).1 = MAX30102_ERR_NO_DATA) :
    (∀ k, k ≤ 100 → (sensor_task_loop hw k st).no_data_count = k)
      ∧ (∀ k, k < 100 → (sensor_task_loop hw (k + 1) st).bus = (sensor_task_read hw k st).2.2)
      ∧ (sensor_task_loop hw 101 st).no_data_count = 0
      ∧ (sensor_task_loop hw 101 st).bus =
          (max30102_init (some MAX30102_DEFAULT_CONFIG)
            (max30102_reset (sensor_task_read hw 100 st).2.2).2).2 := by
  have hcount : ∀ k, k ≤ 100 → (sensor_task_loop hw k st).no_data_count = k :=
    fun k hk => sensor_task_loop_counts hw st h0 k hk (fun i hi => hnd i (by omega))
  have e101 : sensor_task_loop hw 101 st =
      sensor_task_iter
        { sensor_task_loop hw 100 st with bus := hw 100 (sensor_task_loop hw 100 st).bus } :=
    sensor_task_loop_succ hw 100 st
  have step101 := sensor_task_iter_resync
    { sensor_task_loop hw 100 st with bus := hw 100 (sensor_task_loop hw 100 st).bus }
    (hnd 100 (by omega)) (hcount 100 (le_refl 100))
  refine ⟨hcount, ?_, ?_, ?_⟩
  · intro k hk
    have step := sensor_task_iter_no_data
      { sensor_task_loop hw k st with bus := hw k (sensor_task_loop hw k st).bus }
      (hnd k (by omega)) (lt_of_eq_of_lt (hcount k (by omega)) hk)
    rw [sensor_task_loop_succ]
    exact step.2
  · rw [e101]
    exact step101.1
  · rw [e101]
    exact step101.2

/-- Witness for C9 (amended): the polling task on an idle device with an empty FIFO. -/
theorem sensor_task_resync_after_101_witness :
    (sensor_task_loop idle_hw 100 task_start).no_data_count = 100
      ∧ (sensor_task_loop idle_hw 101 task_start).no_data_count = 0
      ∧ (sensor_task_loop idle_hw 101 task_start).bus =
          (max30102_init (some MAX30102_DEFAULT_CONFIG)
            (max30102_reset (sensor_task_read idle_hw 100 task_start).2.2).2).2 :=
  have h := sensor_task_resync_after_101 idle_hw task_start rfl
    (fun i hi => idle_read_no_data task_start rfl task_start_quiet i (by omega))
  ⟨h.1 100 (by omega), h.2.2.1, h.2.2.2⟩

/-! ### The configuration bytes of `max30102_init` -/

theorem mask_or3 (x y z m : Nat) :
    (x ||| y ||| z) &&& m = (x &&& m) ||| (y &&& m) ||| (z &&& m) := by
  rw [Nat.and_distrib_right, Nat.and_distrib_right]

theorem masked_and (a m n k : Nat) (h : m &&& n = k) : (a &&& m) &&& n = a &&& k := by
  rw [Nat.and_assoc, h]

theorem fifo_config_eq (c : max30102_config_t) :
    fifo_config c = (c.sample_avg &&& 0xE0) ||| (if c.rollover_enable then 0x10 else 0)
      ||| (c.almost_full_threshold &&& 0x0F) := by
  have h1 : c.sample_avg &&& 0xE0 < 2 ^ 8 := Nat.and_lt_two_pow _ (by norm_num)
  have h2 : (if c.rollover_enable then 0x10 else 0 : Nat) < 2 ^ 8 := by
    split <;> norm_num
  have h3 : c.almost_full_threshold &&& 0x0F < 2 ^ 8 := Nat.and_lt_two_pow _ (by norm_num)
  have h := Nat.or_lt_two_pow (Nat.or_lt_two_pow h1 h2) h3
  unfold fifo_config
  exact Nat.mod_eq_of_lt h

theorem spo2_config_eq (c : max30102_config_t) :
    spo2_config c = (c.adc_range &&& 0x60) ||| (c.sample_rate &&& 0x1C)
      ||| (c.pulse_width &&& 0x03) := by
  have h1 : c.adc_range &&& 0x60 < 2 ^ 8 := Nat.and_lt_two_pow _ (by norm_num)
  have h2 : c.sample_rate &&& 0x1C < 2 ^ 8 := Nat.and_lt_two_pow _ (by norm_num)
  have h3 : c.pulse_width &&& 0x03 < 2 ^ 8 := Nat.and_lt_two_pow _ (by norm_num)
  have h := Nat.or_lt_two_pow (Nat.or_lt_two_pow h1 h2) h3
  unfold spo2_config
  exact Nat.mod_eq_of_lt h

theorem fifo_config_fields (c : max30102_config_t) :
    fifo_config c &&& 0xE0 = c.sample_avg &&& 0xE0
      ∧ fifo_config c &&& 0x10 = (if c.rollover_enable then 0x10 else 0)
      ∧ fifo_config c &&& 0x0F = c.almost_full_threshold &&& 0x0F := by
  have e1 : (16 &&& 224 : Nat) = 0 := by decide
  have e2 : (16 &&& 16 : Nat) = 16 := by decide
  have e3 : (16 &&& 15 : Nat) = 0 := by decide
  rw [fifo_config_eq]
  refine ⟨?_, ?_, ?_⟩
  · rw [mask_or3, masked_and _ 0xE0 0xE0 0xE0 (by decide), masked_and _ 0x0F 0xE0 0 (by decide)]
    cases c.rollover_enable <;> simp [e1]
  · rw [mask_or3, masked_and _ 0xE0 0x10 0 (by decide), masked_and _ 0x0F 0x10 0 (by decide)]
    cases c.rollover_enable <;> simp [e2]
  · rw [mask_or3, masked_and _ 0xE0 0x0F 0 (by decide), masked_and _ 0x0F 0x0F 0x0F (by decide)]
    cases c.rollover_enable <;> simp [e3]

theorem spo2_config_fields (c : max30102_config_t) :
    spo2_config c &&& 0x60 = c.adc_range &&& 0x60
      ∧ spo2_config c &&& 0x1C = c.sample_rate &&& 0x1C
      ∧ spo2_config c &&& 0x03 = c.pulse_width &&& 0x03
      ∧ spo2_config c &&& 0x80 = 0 := by
  rw [spo2_config_eq]
  refine ⟨?_, ?_, ?_, ?_⟩
  · rw [mask_or3, masked_and _ 0x60 0x60 0x60 (by decide), masked_and _ 0x1C 0x60 0 (by decide),
      masked_and _ 0x03 0x60 0 (by decide)]
    simp
  · rw [mask_or3, masked_and _ 0x60 0x1C 0 (by decide), masked_and _ 0x1C 0x1C 0x1C (by decide),
      masked_and _ 0x03 0x1C 0 (by decide)]
    simp
  · rw [mask_or3, masked_and _ 0x60 0x03 0 (by decide), masked_and _ 0x1C 0x03 0 (by decide),
      masked_and _ 0x03 0x03 0x03 (by decide)]
    simp
  · rw [mask_or3, masked_and _ 0x60 0x80 0 (by decide), masked_and _ 0x1C 0x80 0 (by decide),
      masked_and _ 0x03 0x80 0 (by decide)]
    simp

theorem init_ok_inv (c : max30102_config_t) (b : Bus)
    (hret : (max30102_init (some c) b).1 = MAX30102_OK) :
    b.handle = true ∧ b.regs MAX30102_REG_PART_ID % 256 = 0x15
      ∧ ∀ i, i < 17 → b.ok (b.trace.length + i) = true := by
  cases hh : b.handle
  · simp [max30102_init, hh] at hret
  cases h0 : b.ok (b.trace.length)
  · simp [max30102_init, max30102_reset, max30102_get_part_id, max30102_clear_fifo,
    max30102_set_led_power, write_reg_ok, write_reg_fail, read_reg_ok, read_reg_fail,
    MAX30102_REG_FIFO_WR_PTR, MAX30102_REG_FIFO_RD_PTR, MAX30102_REG_OVF_COUNTER,
    MAX30102_REG_MODE_CONFIG, MAX30102_REG_FIFO_DATA, MAX30102_REG_PART_ID,
    MAX30102_REG_FIFO_CONFIG, MAX30102_REG_SPO2_CONFIG, MAX30102_REG_LED1_PA,
    MAX30102_REG_LED2_PA,
      hh, h0] at hret
  cases h1 : b.ok (b.trace.length + 1)
  · simp [max30102_init, max30102_reset, max30102_get_part_id, max30102_clear_fifo,
    max30102_set_led_power, write_reg_ok, write_reg_fail, read_reg_ok, read_reg_fail,
    MAX30102_REG_FIFO_WR_PTR, MAX30102_REG_FIFO_RD_PTR, MAX30102_REG_OVF_COUNTER,
    MAX30102_REG_MODE_CONFIG, MAX30102_REG_FIFO_DATA, MAX30102_REG_PART_ID,
    MAX30102_REG_FIFO_CONFIG, MAX30102_REG_SPO2_CONFIG, MAX30102_REG_LED1_PA,
    MAX30102_REG_LED2_PA,
      hh, h0, h1] at hret
  cases h2 : b.ok (b.trace.length + 2)
  · simp [max30102_init, max30102_reset, max30102_get_part_id, max30102_clear_fifo,
    max30102_set_led_power, write_reg_ok, write_reg_fail, read_reg_ok, read_reg_fail,
    MAX30102_REG_FIFO_WR_PTR, MAX30102_REG_FIFO_RD_PTR, MAX30102_REG_OVF_COUNTER,
    MAX30102_REG_MODE_CONFIG, MAX30102_REG_FIFO_DATA, MAX30102_REG_PART_ID,
    MAX30102_REG_FIFO_CONFIG, MAX30102_REG_SPO2_CONFIG, MAX30102_REG_LED1_PA,
    MAX30102_REG_LED2_PA,
      hh, h0, h1, h2] at hret
  by_cases hid : b.regs 255 % 256 = 21
  swap
  · simp [max30102_init, max30102_reset, max30102_get_part_id, max30102_clear_fifo,
    max30102_set_led_power, write_reg_ok, write_reg_fail, read_reg_ok, read_reg_fail,
    MAX30102_REG_FIFO_WR_PTR, MAX30102_REG_FIFO_RD_PTR, MAX30102_REG_OVF_COUNTER,
    MAX30102_REG_MODE_CONFIG, MAX30102_REG_FIFO_DATA, MAX30102_REG_PART_ID,
    MAX30102_REG_FIFO_CONFIG, MAX30102_REG_SPO2_CONFIG, MAX30102_REG_LED1_PA,
    MAX30102_REG_LED2_PA,
      hh, h0, h1, h2, hid] at hret
  cases h3 : b.ok (b.trace.length + 3)
  · simp [max30102_init, max30102_reset, max30102_get_part_id, max30102_clear_fifo,
    max30102_set_led_power, write_reg_ok, write_reg_fail, read_reg_ok, read_reg_fail,
    MAX30102_REG_FIFO_WR_PTR, MAX30102_REG_FIFO_RD_PTR, MAX30102_REG_OVF_COUNTER,
    MAX30102_REG_MODE_CONFIG, MAX30102_REG_FIFO_DATA, MAX30102_REG_PART_ID,
    MAX30102_REG_FIFO_CONFIG, MAX30102_REG_SPO2_CONFIG, MAX30102_REG_LED1_PA,
    MAX30102_REG_LED2_PA,
      hh, hid, h0, h1, h2, h3] at hret
  cases h4 : b.ok (b.trace.length + 4)
  · simp [max30102_init, max30102_reset, max30102_get_part_id, max30102_clear_fifo,
    max30102_set_led_power, write_reg_ok, write_reg_fail, read_reg_ok, read_reg_fail,
    MAX30102_REG_FIFO_WR_PTR, MAX30102_REG_FIFO_RD_PTR, MAX30102_REG_OVF_COUNTER,
    MAX30102_REG_MODE_CONFIG, MAX30102_REG_FIFO_DATA, MAX30102_REG_PART_ID,
    MAX30102_REG_FIFO_CONFIG, MAX30102_REG_SPO2_CONFIG, MAX30102_REG_LED1_PA,
    MAX30102_REG_LED2_PA,
      hh, hid, h0, h1, h2, h3, h4] at hret
  cases h5 : b.ok (b.trace.length + 5)
  · simp [max30102_init, max30102_reset, max30102_get_part_id, max30102_clear_fifo,
    max30102_set_led_power, write_reg_ok, write_reg_fail, read_reg_ok, read_reg_fail,
    MAX30102_REG_FIFO_WR_PTR, MAX30102_REG_FIFO_RD_PTR, MAX30102_REG_OVF_COUNTER,
    MAX30102_REG_MODE_CONFIG, MAX30102_REG_FIFO_DATA, MAX30102_REG_PART_ID,
    MAX30102_REG_FIFO_CONFIG, MAX30102_REG_SPO2_CONFIG, MAX30102_REG_LED1_PA,
    MAX30102_REG_LED2_PA,
      hh, hid, h0, h1, h2, h3, h4, h5] at hret
  cases h6 : b.ok (b.trace.length + 6)
  · simp [max30102_init, max30102_reset, max30102_get_part_id, max30102_clear_fifo,
    max30102_set_led_power, write_reg_ok, write_reg_fail, read_reg_ok, read_reg_fail,
    MAX30102_REG_FIFO_WR_PTR, MAX30102_REG_FIFO_RD_PTR, MAX30102_REG_OVF_COUNTER,
    MAX30102_REG_MODE_CONFIG, MAX30102_REG_FIFO_DATA, MAX30102_REG_PART_ID,
    MAX30102_REG_FIFO_CONFIG, MAX30102_REG_SPO2_CONFIG, MAX30102_REG_LED1_PA,
    MAX30102_REG_LED2_PA,
      hh, hid, h0, h1, h2, h3, h4, h5, h6] at hret
  cases h7 : b.ok (b.trace.length + 7)
  · simp [max30102_init, max30102_reset, max30102_get_part_id, max30102_clear_fifo,
    max30102_set_led_power, write_reg_ok, write_reg_fail, read_reg_ok, read_reg_fail,
    MAX30102_REG_FIFO_WR_PTR, MAX30102_REG_FIFO_RD_PTR, MAX30102_REG_OVF_COUNTER,
    MAX30102_REG_MODE_CONFIG, MAX30102_REG_FIFO_DATA, MAX30102_REG_PART_ID,
    MAX30102_REG_FIFO_CONFIG, MAX30102_REG_SPO2_CONFIG, MAX30102_REG_LED1_PA,
    MAX30102_REG_LED2_PA,
      hh, hid, h0, h1, h2, h3, h4, h5, h6, h7] at hret
  cases h8 : b.ok (b.trace.length + 8)
  · simp [max30102_init, max30102_reset, max30102_get_part_id, max30102_clear_fifo,
    max30102_set_led_power, write_reg_ok, write_reg_fail, read_reg_ok, read_reg_fail,
    MAX30102_REG_FIFO_WR_PTR, MAX30102_REG_FIFO_RD_PTR, MAX30102_REG_OVF_COUNTER,
    MAX30102_REG_MODE_CONFIG, MAX30102_REG_FIFO_DATA, MAX30102_REG_PART_ID,
    MAX30102_REG_FIFO_CONFIG, MAX30102_REG_SPO2_CONFIG, MAX30102_REG_LED1_PA,
    MAX30102_REG_LED2_PA,
      hh, hid, h0, h1, h2, h3, h4, h5, h6, h7, h8] at hret
  cases h9 : b.ok (b.trace.length + 9)
  · simp [max30102_init, max30102_reset, max30102_get_part_id, max30102_clear_fifo,
    max30102_set_led_power, write_reg_ok, write_reg_fail, read_reg_ok, read_reg_fail,
    MAX30102_REG_FIFO_WR_PTR, MAX30102_REG_FIFO_RD_PTR, MAX30102_REG_OVF_COUNTER,
    MAX30102_REG_MODE_CONFIG, MAX30102_REG_FIFO_DATA, MAX30102_REG_PART_ID,
    MAX30102_REG_FIFO_CONFIG, MAX30102_REG_SPO2_CONFIG, MAX30102_REG_LED1_PA,
    MAX30102_REG_LED2_PA,
      hh, hid, h0, h1, h2, h3, h4, h5, h6, h7, h8, h9] at hret
  cases h10 : b.ok (b.trace.length + 10)
  · simp [max30102_init, max30102_reset, max30102_get_part_id, max30102_clear_fifo,
    max30102_set_led_power, write_reg_ok, write_reg_fail, read_reg_ok, read_reg_fail,
    MAX30102_REG_FIFO_WR_PTR, MAX30102_REG_FIFO_RD_PTR, MAX30102_REG_OVF_COUNTER,
    MAX30102_REG_MODE_CONFIG, MAX30102_REG_FIFO_DATA, MAX30102_REG_PART_ID,
    MAX30102_REG_FIFO_CONFIG, MAX30102_REG_SPO2_CONFIG, MAX30102_REG_LED1_PA,
    MAX30102_REG_LED2_PA,
      hh, hid, h0, h1, h2, h3, h4, h5, h6, h7, h8, h9, h10] at hret
  cases h11 : b.ok (b.trace.length + 11)
  · simp [max30102_init, max30102_reset, max30102_get_part_id, max30102_clear_fifo,
    max30102_set_led_power, write_reg_ok, write_reg_fail, read_reg_ok, read_reg_fail,
    MAX30102_REG_FIFO_WR_PTR, MAX30102_REG_FIFO_RD_PTR, MAX30102_REG_OVF_COUNTER,
    MAX30102_REG_MODE_CONFIG, MAX30102_REG_FIFO_DATA, MAX30102_REG_PART_ID,
    MAX30102_REG_FIFO_CONFIG, MAX30102_REG_SPO2_CONFIG, MAX30102_REG_LED1_PA,
    MAX30102_REG_LED2_PA,
      hh, hid, h0, h1, h2, h3, h4, h5, h6, h7, h8, h9, h10, h11] at hret
  cases h12 : b.ok (b.trace.length + 12)
  · simp [max30102_init, max30102_reset, max30102_get_part_id, max30102_clear_fifo,
    max30102_set_led_power, write_reg_ok, write_reg_fail, read_reg_ok, read_reg_fail,
    MAX30102_REG_FIFO_WR_PTR, MAX30102_REG_FIFO_RD_PTR, MAX30102_REG_OVF_COUNTER,
    MAX30102_REG_MODE_CONFIG, MAX30102_REG_FIFO_DATA, MAX30102_REG_PART_ID,
    MAX30102_REG_FIFO_CONFIG, MAX30102_REG_SPO2_CONFIG, MAX30102_REG_LED1_PA,
    MAX30102_REG_LED2_PA,
      hh, hid, h0, h1, h2, h3, h4, h5, h6, h7, h8, h9, h10, h11, h12] at hret
  cases h13 : b.ok (b.trace.length + 13)
  · simp [max30102_init, max30102_reset, max30102_get_part_id, max30102_clear_fifo,
    max30102_set_led_power, write_reg_ok, write_reg_fail, read_reg_ok, read_reg_fail,
    MAX30102_REG_FIFO_WR_PTR, MAX30102_REG_FIFO_RD_PTR, MAX30102_REG_OVF_COUNTER,
    MAX30102_REG_MODE_CONFIG, MAX30102_REG_FIFO_DATA, MAX30102_REG_PART_ID,
    MAX30102_REG_FIFO_CONFIG, MAX30102_REG_SPO2_CONFIG, MAX30102_REG_LED1_PA,
    MAX30102_REG_LED2_PA,
      hh, hid, h0, h1, h2, h3, h4, h5, h6, h7, h8, h9, h10, h11, h12, h13] at hret
  cases h14 : b.ok (b.trace.length + 14)
  · simp [max30102_init, max30102_reset, max30102_get_part_id, max30102_clear_fifo,
    max30102_set_led_power, write_reg_ok, write_reg_fail, read_reg_ok, read_reg_fail,
    MAX30102_REG_FIFO_WR_PTR, MAX30102_REG_FIFO_RD_PTR, MAX30102_REG_OVF_COUNTER,
    MAX30102_REG_MODE_CONFIG, MAX30102_REG_FIFO_DATA, MAX30102_REG_PART_ID,
    MAX30102_REG_FIFO_CONFIG, MAX30102_REG_SPO2_CONFIG, MAX30102_REG_LED1_PA,
    MAX30102_REG_LED2_PA,
      hh, hid, h0, h1, h2, h3, h4, h5, h6, h7, h8, h9, h10, h11, h12, h13, h14] at hret
  cases h15 : b.ok (b.trace.length + 15)
  · simp [max30102_init, max30102_reset, max30102_get_part_id, max30102_clear_fifo,
    max30102_set_led_power, write_reg_ok, write_reg_fail, read_reg_ok, read_reg_fail,
    MAX30102_REG_FIFO_WR_PTR, MAX30102_REG_FIFO_RD_PTR, MAX30102_REG_OVF_COUNTER,
    MAX30102_REG_MODE_CONFIG, MAX30102_REG_FIFO_DATA, MAX30102_REG_PART_ID,
    MAX30102_REG_FIFO_CONFIG, MAX30102_REG_SPO2_CONFIG, MAX30102_REG_LED1_PA,
    MAX30102_REG_LED2_PA,
      hh, hid, h0, h1, h2, h3, h4, h5, h6, h7, h8, h9, h10, h11, h12, h13, h14, h15] at hret
  cases h16 : b.ok (b.trace.length + 16)
  · simp [max30102_init, max30102_reset, max30102_get_part_id, max30102_clear_fifo,
    max30102_set_led_power, write_reg_ok, write_reg_fail, read_reg_ok, read_reg_fail,
    MAX30102_REG_FIFO_WR_PTR, MAX30102_REG_FIFO_RD_PTR, MAX30102_REG_OVF_COUNTER,
    MAX30102_REG_MODE_CONFIG, MAX30102_REG_FIFO_DATA, MAX30102_REG_PART_ID,
    MAX30102_REG_FIFO_CONFIG, MAX30102_REG_SPO2_CONFIG, MAX30102_REG_LED1_PA,
    MAX30102_REG_LED2_PA,
      hh, hid, h0, h1, h2, h3, h4, h5, h6, h7, h8, h9, h10, h11, h12, h13, h14, h15, h16] at hret
  refine ⟨rfl, hid, ?_⟩
  intro i hi
  interval_cases i <;> simp [h0, h1, h2, h3, h4, h5, h6, h7, h8, h9, h10, h11, h12, h13, h14,
    h15, h16]

/-- C11: a successful `max30102_init` writes to the FIFO-config register (0x08)
the byte `(sample_avg & 0xE0) | (rollover_enable ? 0x10 : 0) |
(almost_full_threshold & 0x0F)` and to the SpO2-config register (0x0A) the byte
`(adc_range & 0x60) | (sample_rate & 0x1C) | (pulse_width & 0x03)`; the field
masks are pairwise disjoint, every masked field is recovered by masking the
written byte, bit 7 of the SpO2 byte is 0, and for `MAX30102_DEFAULT_CONFIG`
the two bytes are 0x1A and 0x22. -/
theorem init_writes_config_bytes (c : max30102_config_t) (b : Bus)
    (hret : (max30102_init (some c) b).1 = MAX30102_OK) :
    issued b (max30102_init (some c) b).2 =
        [Xfer.write MAX30102_REG_MODE_CONFIG 0x80 true,
         Xfer.write MAX30102_REG_MODE_CONFIG 0x40 true,
         Xfer.read MAX30102_REG_PART_ID 1 true,
         Xfer.write MAX30102_REG_FIFO_WR_PTR 0 true,
         Xfer.write MAX30102_REG_OVF_COUNTER 0 true,
         Xfer.write MAX30102_REG_FIFO_RD_PTR 0 true,
         Xfer.write MAX30102_REG_FIFO_CONFIG (fifo_config c) true,
         Xfer.write MAX30102_REG_SPO2_CONFIG (spo2_config c) true,
         Xfer.write MAX30102_REG_LED1_PA (c.led1_power % 256) true,
         Xfer.write MAX30102_REG_LED2_PA (c.led2_power % 256) true,
         Xfer.write MAX30102_REG_FIFO_WR_PTR 0 true,
         Xfer.write MAX30102_REG_OVF_COUNTER 0 true,
         Xfer.write MAX30102_REG_FIFO_RD_PTR 0 true,
         Xfer.write MAX30102_REG_MODE_CONFIG (c.mode % 256) true,
         Xfer.write MAX30102_REG_FIFO_WR_PTR 0 true,
         Xfer.write MAX30102_REG_OVF_COUNTER 0 true,
         Xfer.write MAX30102_REG_FIFO_RD_PTR 0 true]
      ∧ (max30102_init (some c) b).2.regs MAX30102_REG_FIFO_CONFIG = fifo_config c
      ∧ (max30102_init (some c) b).2.regs MAX30102_REG_SPO2_CONFIG = spo2_config c
      ∧ fifo_config c = (c.sample_avg &&& 0xE0) ||| (if c.rollover_enable then 0x10 else 0)
          ||| (c.almost_full_threshold &&& 0x0F)
      ∧ spo2_config c = (c.adc_range &&& 0x60) ||| (c.sample_rate &&& 0x1C)
          ||| (c.pulse_width &&& 0x03)
      ∧ ((0xE0 &&& 0x10 : Nat) = 0 ∧ (0xE0 &&& 0x0F : Nat) = 0 ∧ (0x10 &&& 0x0F : Nat) = 0)
      ∧ ((0x60 &&& 0x1C : Nat) = 0 ∧ (0x60 &&& 0x03 : Nat) = 0 ∧ (0x1C &&& 0x03 : Nat) = 0)
      ∧ (fifo_config c &&& 0xE0 = c.sample_avg &&& 0xE0
          ∧ fifo_config c &&& 0x10 = (if c.rollover_enable then 0x10 else 0)
          ∧ fifo_config c &&& 0x0F = c.almost_full_threshold &&& 0x0F)
      ∧ (spo2_config c &&& 0x60 = c.adc_range &&& 0x60
          ∧ spo2_config c &&& 0x1C = c.sample_rate &&& 0x1C
          ∧ spo2_config c &&& 0x03 = c.pulse_width &&& 0x03
          ∧ spo2_config c &&& 0x80 = 0)
      ∧ fifo_config MAX30102_DEFAULT_CONFIG = 0x1A
      ∧ spo2_config MAX30102_DEFAULT_CONFIG = 0x22 := by
  obtain ⟨hh, hid, hok⟩ := init_ok_inv c b hret
  have hid2 : b.regs 255 % 256 = 21 := hid
  have h0 : b.ok (b.trace.length) = true := by simpa using hok 0 (by omega)
  have h1 : b.ok (b.trace.length + 1) = true := by simpa using hok 1 (by omega)
  have h2 : b.ok (b.trace.length + 2) = true := by simpa using hok 2 (by omega)
  have h3 : b.ok (b.trace.length + 3) = true := by simpa using hok 3 (by omega)
  have h4 : b.ok (b.trace.length + 4) = true := by simpa using hok 4 (by omega)
  have h5 : b.ok (b.trace.length + 5) = true := by simpa using hok 5 (by omega)
  have h6 : b.ok (b.trace.length + 6) = true := by simpa using hok 6 (by omega)
  have h7 : b.ok (b.trace.length + 7) = true := by simpa using hok 7 (by omega)
  have h8 : b.ok (b.trace.length + 8) = true := by simpa using hok 8 (by omega)
  have h9 : b.ok (b.trace.length + 9) = true := by simpa using hok 9 (by omega)
  have h10 : b.ok (b.trace.length + 10) = true := by simpa using hok 10 (by omega)
  have h11 : b.ok (b.trace.length + 11) = true := by simpa using hok 11 (by omega)
  have h12 : b.ok (b.trace.length + 12) = true := by simpa using hok 12 (by omega)
  have h13 : b.ok (b.trace.length + 13) = true := by simpa using hok 13 (by omega)
  have h14 : b.ok (b.trace.length + 14) = true := by simpa using hok 14 (by omega)
  have h15 : b.ok (b.trace.length + 15) = true := by simpa using hok 15 (by omega)
  have h16 : b.ok (b.trace.length + 16) = true := by simpa using hok 16 (by omega)
  refine ⟨?_, ?_, ?_, fifo_config_eq c, spo2_config_eq c, by decide, by decide,
    fifo_config_fields c, spo2_config_fields c, by decide, by decide⟩
  · simp [max30102_init, max30102_reset, max30102_get_part_id, max30102_clear_fifo,
    max30102_set_led_power, write_reg_ok, write_reg_fail, read_reg_ok, read_reg_fail,
    MAX30102_REG_FIFO_WR_PTR, MAX30102_REG_FIFO_RD_PTR, MAX30102_REG_OVF_COUNTER,
    MAX30102_REG_MODE_CONFIG, MAX30102_REG_FIFO_DATA, MAX30102_REG_PART_ID,
    MAX30102_REG_FIFO_CONFIG, MAX30102_REG_SPO2_CONFIG, MAX30102_REG_LED1_PA,
    MAX30102_REG_LED2_PA,
      fifo_config, spo2_config, issued, MAX30102_ROLLOVER_EN, MAX30102_A_FULL_MASK,
      hh, hid2, h0, h1, h2, h3, h4, h5, h6, h7, h8, h9, h10, h11, h12, h13, h14, h15, h16]
  · simp [max30102_init, max30102_reset, max30102_get_part_id, max30102_clear_fifo,
    max30102_set_led_power, write_reg_ok, write_reg_fail, read_reg_ok, read_reg_fail,
    MAX30102_REG_FIFO_WR_PTR, MAX30102_REG_FIFO_RD_PTR, MAX30102_REG_OVF_COUNTER,
    MAX30102_REG_MODE_CONFIG, MAX30102_REG_FIFO_DATA, MAX30102_REG_PART_ID,
    MAX30102_REG_FIFO_CONFIG, MAX30102_REG_SPO2_CONFIG, MAX30102_REG_LED1_PA,
    MAX30102_REG_LED2_PA,
      fifo_config, spo2_config, MAX30102_ROLLOVER_EN, MAX30102_A_FULL_MASK,
      hh, hid2, h0, h1, h2, h3, h4, h5, h6, h7, h8, h9, h10, h11, h12, h13, h14, h15, h16]
  · simp [max30102_init, max30102_reset, max30102_get_part_id, max30102_clear_fifo,
    max30102_set_led_power, write_reg_ok, write_reg_fail, read_reg_ok, read_reg_fail,
    MAX30102_REG_FIFO_WR_PTR, MAX30102_REG_FIFO_RD_PTR, MAX30102_REG_OVF_COUNTER,
    MAX30102_REG_MODE_CONFIG, MAX30102_REG_FIFO_DATA, MAX30102_REG_PART_ID,
    MAX30102_REG_FIFO_CONFIG, MAX30102_REG_SPO2_CONFIG, MAX30102_REG_LED1_PA,
    MAX30102_REG_LED2_PA,
      fifo_config, spo2_config, MAX30102_ROLLOVER_EN, MAX30102_A_FULL_MASK,
      hh, hid2, h0, h1, h2, h3, h4, h5, h6, h7, h8, h9, h10, h11, h12, h13, h14, h15, h16]

/-- Witness for C11: the default configuration on a device with part identifier 0x15. -/
theorem init_writes_config_bytes_witness :
    (max30102_init (some MAX30102_DEFAULT_CONFIG) (mk_bus (fifo_regs 0 0 0) [] [])).1 = MAX30102_OK
      ∧ (max30102_init (some MAX30102_DEFAULT_CONFIG)
          (mk_bus (fifo_regs 0 0 0) [] [])).2.regs MAX30102_REG_FIFO_CONFIG = 0x1A
      ∧ (max30102_init (some MAX30102_DEFAULT_CONFIG)
          (mk_bus (fifo_regs 0 0 0) [] [])).2.regs MAX30102_REG_SPO2_CONFIG = 0x22 :=
  have h := init_writes_config_bytes MAX30102_DEFAULT_CONFIG (mk_bus (fifo_regs 0 0 0) [] [])
    (by decide)
  ⟨by decide, h.2.1.trans h.2.2.2.2.2.2.2.2.2.1, h.2.2.1.trans h.2.2.2.2.2.2.2.2.2.2⟩

end MAX30102
